import Mathlib

/-!
Shallow embedding of the YouTube-analyzer pipeline (files `utils.py`,
`converter.py`, `transcriber.py`, `summarizer.py`, `downloader.py`,
`main.py`) together with proofs settling the specification claims.

Modelling conventions:
* Python strings are Lean `String` (a list of characters; Python `len`,
  slicing `s[:n]`, and `strip()` are modelled character-wise).
* File sizes in MB are `ℚ`.
* The filesystem, the ffmpeg transcoder, and the Gemini backend are
  external collaborators; they enter as explicit oracle parameters
  (`String → Option FileMeta`, `ConvOutcome`, `String → Option String`).
  An oracle value `none` models the Python call raising an exception that
  the source catches, mirroring each `try/except` of the source.
* Calls into external services (ffmpeg runs, prompts sent to the
  backend, network calls) are additionally returned as an explicit log so
  that "no network call was attempted" style properties are observable.
-/

/-! ## utils.py -/

/-- Characters matched by Python's `\s` for ASCII text
(`re.sub(r'\s+', ' ', ...)` and `str.strip()`). -/
def pyIsSpace (c : Char) : Bool :=
  c == ' ' || c == '\t' || c == '\n' || c == '\r' || c == '\x0b' || c == '\x0c'

/-- Python `str.strip()` on a character list. -/
def pyStrip (l : List Char) : List Char :=
  ((l.dropWhile pyIsSpace).reverse.dropWhile pyIsSpace).reverse

/-- Python `str.strip()` on a string. -/
def pyStripStr (s : String) : String :=
  ⟨pyStrip s.data⟩

/-- Python `s[:n]` on a string. -/
def pyTake (n : Nat) (s : String) : String :=
  ⟨s.data.take n⟩

/-- Python `str.lower()` (character-wise). -/
def pyToLower (s : String) : String :=
  ⟨s.data.map Char.toLower⟩

/-- `re.sub(r'\s+', ' ', l)`: every maximal run of whitespace becomes one
single space. -/
def collapseWs : List Char → List Char
  | [] => []
  | [c] => if pyIsSpace c then [' '] else [c]
  | c :: d :: rest =>
    if pyIsSpace c then
      if pyIsSpace d then collapseWs (d :: rest)
      else ' ' :: collapseWs (d :: rest)
    else c :: collapseWs (d :: rest)

/-- The characters removed by `sanitize_filename` (`[<>:"/\\|?*]`). -/
def pyInvalidChars : List Char := ['<', '>', ':', '"', '/', '\\', '|', '?', '*']

/-- `utils.sanitize_filename`: replace invalid characters by `_`, collapse
whitespace runs, strip, and keep the first 100 characters
(`re.sub(r'\s+', ' ', sanitized).strip()[:100]`). -/
def sanitize_filename (s : String) : String :=
  let replaced := s.data.map fun c => if c ∈ pyInvalidChars then '_' else c
  ⟨(pyStrip (collapseWs replaced)).take 100⟩

/-- `startsWithSeq p l` models the regex engine checking the literal
pattern `p` at the current position of `l`. -/
def startsWithSeq : List Char → List Char → Bool
  | [], _ => true
  | _ :: _, [] => false
  | p :: ps, c :: cs => p == c && startsWithSeq ps cs

/-- `occursIn p l` models `re.search` for a literal pattern `p` in `l`:
the pattern occurs at some position. -/
def occursIn (pat : List Char) : List Char → Bool
  | [] => pat.isEmpty
  | c :: cs => startsWithSeq pat (c :: cs) || occursIn pat cs

/-- The four literal patterns of `utils.validate_youtube_url` (the regex
sources with the escapes resolved; none of them is anchored). -/
def youtube_patterns : List String :=
  ["youtube.com/watch?v=", "youtu.be/", "youtube.com/embed/", "youtube.com/v/"]

/-- `utils.validate_youtube_url`:
`any(re.search(pattern, url) for pattern in youtube_patterns)`. -/
def validate_youtube_url (url : String) : Bool :=
  youtube_patterns.any fun p => occursIn p.data url.data

/-- `utils.cleanup_temp_files`: unlink every file found in the transient
media directory (`temp_files/*`); deletion of each file is modelled as
succeeding. -/
def cleanup_temp_files (_files : List String) : List String := []

/-! ## converter.py

The transcoder (ffmpeg) and the filesystem are external: `FileMeta`
bundles what the source reads off an input path (`Path(...).exists()`,
`Path(...).stem`, `Path(...).suffix`, `stat().st_size`), supplied by an
oracle `fi : String → Option FileMeta` (`none` = the file does not
exist).  A `ConvOutcome` oracle says what an `ffmpeg.run` invocation
would do.  Each converter function returns its result together with the
list of output paths for which `ffmpeg.run` was invoked. -/

/-- Metadata the converter reads from an input path: `Path.stem`,
`Path.suffix` (with the leading dot, original casing) and the file size
`stat().st_size / 1024 / 1024` in MB. -/
structure FileMeta where
  stem : String
  ext : String
  sizeMB : ℚ
deriving DecidableEq

/-- Outcome of one `ffmpeg.run` invocation. -/
inductive ConvOutcome where
  /-- ffmpeg returned and the output file exists, with this size in MB. -/
  | created (outSizeMB : ℚ)
  /-- ffmpeg returned but the output file was not created. -/
  | notCreated
  /-- `ffmpeg.Error` was raised. -/
  | ffmpegError
  /-- some other exception was raised during conversion. -/
  | otherError
deriving DecidableEq

/-- A conversion attempt that did not produce its output file. -/
def ConvOutcome.isFailure : ConvOutcome → Bool
  | .created _ => false
  | _ => true

/-- Directory used by `AudioConverter(output_dir='temp_files')`. -/
def temp_dir_path (name : String) : String := "temp_files/" ++ name

/-- `AudioConverter.convert_to_wav`: strict entry point.  Returns `none`
when the input file does not exist, when ffmpeg raises (`ffmpeg.Error`
or any other exception), or when the output file was not created. -/
def convert_to_wav (fi : String → Option FileMeta) (conv : ConvOutcome)
    (input_path : String) : Option String × List String :=
  match fi input_path with
  | none => (none, [])
  | some m =>
    let output_path := temp_dir_path (m.stem ++ "_converted.wav")
    match conv with
    | .created _ => (some output_path, [output_path])
    | .notCreated => (none, [output_path])
    | .ffmpegError => (none, [output_path])
    | .otherError => (none, [output_path])

/-- `AudioConverter._optimize_for_gemini_internal`: zero-cost path when
the container is already accepted and the size is at most 18 MB;
otherwise transcode to MP3, falling back to the original path when the
output file is missing or the conversion raises. -/
def optimize_for_gemini_internal (conv : ConvOutcome) (input_path : String)
    (m : FileMeta) : String × List String :=
  if pyToLower m.ext ∈ [".mp3", ".wav", ".flac"] ∧ m.sizeMB ≤ 18 then
    (input_path, [])
  else
    let output_path := temp_dir_path (m.stem ++ "_gemini_optimized.mp3")
    match conv with
    | .created _ => (output_path, [output_path])
    | .notCreated => (input_path, [output_path])
    | .ffmpegError => (input_path, [output_path])
    | .otherError => (input_path, [output_path])

/-- `AudioConverter.optimize_for_whisper`: unified lenient entry point.
Returns `none` when the input file does not exist; dispatches on
`target_ai` to the Gemini optimization or to `convert_to_wav`. -/
def optimize_for_whisper (fi : String → Option FileMeta) (conv : ConvOutcome)
    (input_path : String) (target_ai : String) : Option String × List String :=
  match fi input_path with
  | none => (none, [])
  | some m =>
    if pyToLower target_ai == "gemini" then
      let r := optimize_for_gemini_internal conv input_path m
      (some r.1, r.2)
    else
      convert_to_wav fi conv input_path

/-- `AudioConverter.optimize_for_gemini`: compatibility wrapper calling
`optimize_for_whisper` with `target_ai='gemini'`. -/
def optimize_for_gemini (fi : String → Option FileMeta) (conv : ConvOutcome)
    (input_path : String) : Option String × List String :=
  optimize_for_whisper fi conv input_path "gemini"

/-! ## transcriber.py -/

/-- The language-code table shared by `transcriber.py` and
`summarizer.py` (`lang_names` dictionaries). -/
def lang_names (code : String) : Option String :=
  if code == "pt" then some "português brasileiro"
  else if code == "en" then some "inglês"
  else if code == "es" then some "espanhol"
  else if code == "fr" then some "francês"
  else none

/-- `AudioTranscriber._build_transcription_prompt` (the surrounding
indentation of the Python triple-quoted strings is normalized away;
the textual content is kept). -/
def build_transcription_prompt (target_language source_language : Option String) :
    String :=
  match target_language with
  | none =>
    "Transcreva este áudio de forma completa e precisa no idioma original.\n\n" ++
    "Instruções:\n- Mantenha o idioma original do áudio\n" ++
    "- Inclua toda a fala de forma literal\n- Use pontuação natural\n" ++
    "- Não adicione comentários ou interpretações\n\n" ++
    "Retorne apenas o texto transcrito:"
  | some tl =>
    let tname := (lang_names tl).getD tl
    let language_context :=
      match source_language with
      | some sl =>
        "O áudio está em " ++ (lang_names sl).getD sl ++
        " e deve ser traduzido para " ++ tname ++ "."
      | none => "Transcreva e traduza o conteúdo para " ++ tname ++ "."
    language_context ++ "\n\nInstruções importantes:\n" ++
    "1. Primeiro, transcreva completamente o que está sendo dito\n" ++
    "2. Se o áudio não estiver em " ++ tname ++
    ", traduza o conteúdo fiel e naturalmente\n" ++
    "3. Mantenha o sentido e contexto original\n" ++
    "4. Use linguagem natural em " ++ tname ++ "\n" ++
    "5. Preserve nomes próprios, termos técnicos quando apropriado\n" ++
    "6. Não adicione comentários ou interpretações próprias\n\n" ++
    "Retorne apenas o texto final em " ++ tname ++ ":"

/-- One call to the Gemini backend made by the transcriber. -/
inductive NetCall where
  | upload
  | generate
  | deleteFile
deriving DecidableEq

/-- The `dict` result of `AudioTranscriber.transcribe_audio`. -/
structure TranscriptResult where
  text : String
  file_path : String
  file_size_mb : ℚ
  language : String
  source_language : Option String
  model_used : String
deriving DecidableEq

/-- `AudioTranscriber.transcribe_audio`.  Oracles: `ex` is
`Path(audio_path).exists()`, `sizeMB` the file size, `uploadOk` whether
`genai.upload_file` succeeds, `gen` the backend generation call (`none`
models a raised exception, caught by the source's `except`).  The second
component logs the network calls actually made, in order. -/
def transcribe_audio (audio_path : String) (ex : Bool) (sizeMB : ℚ)
    (language source_language : Option String) (uploadOk : Bool)
    (gen : String → Option String) : Option TranscriptResult × List NetCall :=
  if ex = false then (none, [])
  else if 20 < sizeMB then (none, [])
  else if uploadOk = false then (none, [NetCall.upload])
  else
    match gen (build_transcription_prompt language source_language) with
    | none => (none, [NetCall.upload, NetCall.generate])
    | some t =>
      (some {
        text := t,
        file_path := audio_path,
        file_size_mb := sizeMB,
        language := language.getD "auto-detectado",
        source_language := source_language,
        model_used := "gemini-1.5-flash" },
       [NetCall.upload, NetCall.generate, NetCall.deleteFile])

/-! ## summarizer.py -/

/-- The `dict` result of `TextSummarizer.create_summary`. -/
structure SummaryResult where
  summary : String
  original_length : Nat
  summary_length : Nat
  compression_ratio : ℚ
  model_used : String
  summary_type : String
  target_language : String
deriving DecidableEq

/-- The `dict` result of `TextSummarizer.analyze_content`. -/
structure AnalysisResult where
  analysis : String
  model_used : String
  target_language : String
deriving DecidableEq

/-- The language instruction of `TextSummarizer._get_system_prompt`. -/
def summary_lang_instruction (target_language : Option String) : String :=
  match target_language with
  | none => ""
  | some l =>
    "\n\n**IMPORTANTE: Gere todo o resumo em " ++ (lang_names l).getD l ++
    ", independente do idioma do texto original.**"

/-- `TextSummarizer._get_system_prompt`: one of three templates, an
unrecognized type falling back to `structured` (`prompts.get(summary_type,
prompts['structured'])`).  Indentation of the Python templates is
normalized away. -/
def get_system_prompt (summary_type : String) (target_language : Option String) :
    String :=
  let li := summary_lang_instruction target_language
  if summary_type == "bullet_points" then
    "Crie um resumo em tópicos do texto fornecido. Use bullet points claros e concisos." ++
    li ++ "\nOrganize as informações em ordem de importância.\n" ++
    "Máximo de 10 bullet points.\nCada ponto deve ser autocontido e informativo."
  else if summary_type == "paragraph" then
    "Crie um resumo em formato de parágrafo do texto fornecido." ++ li ++
    "\nO resumo deve ter entre 150-300 palavras.\n" ++
    "Mantenha as informações mais importantes e preserve o contexto.\n" ++
    "Use linguagem clara e objetiva."
  else
    "Você é um especialista em análise de conteúdo. Crie um resumo estruturado e organizado do texto fornecido." ++
    li ++ "\n\nFormato desejado:\n## Resumo Executivo\n" ++
    "[Resumo em 2-3 frases do conteúdo principal]\n\n## Principais Tópicos\n" ++
    "- [Tópico 1 com breve descrição]\n- [Tópico 2 com breve descrição]\n" ++
    "- [Tópico 3 com breve descrição]\n\n## Insights Importantes\n" ++
    "- [Insight ou informação relevante 1]\n- [Insight ou informação relevante 2]\n\n" ++
    "## Conclusões\n[Principais conclusões do conteúdo]\n\n" ++
    "Seja conciso, objetivo e mantenha as informações mais importantes."

/-- The truncation marker appended by `create_summary`
(`text[:max_chars] + "\n\n[...texto truncado...]"`). -/
def truncation_marker : String := "\n\n[...texto truncado...]"

/-- `TextSummarizer.create_summary`.  `gen` is the backend generation
call (`none` models a raised exception, caught by the source).  The
second component logs the prompts sent to the backend. -/
def create_summary (text : String) (summary_type : String)
    (target_language : Option String) (gen : String → Option String) :
    Option SummaryResult × List String :=
  if (pyStripStr text).length < 50 then (none, [])
  else
    let system_prompt := get_system_prompt summary_type target_language
    let text' :=
      if 30000 < text.length then pyTake 30000 text ++ truncation_marker else text
    let full_prompt := system_prompt ++ "\n\nTexto para resumir:\n\n" ++ text'
    match gen full_prompt with
    | none => (none, [full_prompt])
    | some summary =>
      (some {
        summary := summary,
        original_length := text'.length,
        summary_length := summary.length,
        compression_ratio := (summary.length : ℚ) / (text'.length : ℚ),
        model_used := "gemini-1.5-flash",
        summary_type := summary_type,
        target_language := target_language.getD "original" },
       [full_prompt])

/-- The language instruction of `TextSummarizer.analyze_content`. -/
def analysis_lang_instruction (target_language : Option String) : String :=
  match target_language with
  | none => ""
  | some l =>
    "\n\n**IMPORTANTE: Gere toda a análise em " ++ (lang_names l).getD l ++ ".**"

/-- The fixed six-section system prompt of `analyze_content`
(indentation normalized). -/
def analysis_system_prompt (target_language : Option String) : String :=
  "Analise o conteúdo fornecido e retorne uma análise estruturada:" ++
  analysis_lang_instruction target_language ++
  "\n\n## Categoria\n[Categoria do conteúdo: educacional, entretenimento, negócios, tecnologia, etc.]\n\n" ++
  "## Público-Alvo\n[Para quem o conteúdo é direcionado]\n\n" ++
  "## Tom/Sentimento\n[Tom do conteúdo: formal, informal, técnico, didático, etc.]\n\n" ++
  "## Tempo Estimado de Leitura\n[Estimativa de tempo para ler o conteúdo original]\n\n" ++
  "## Palavras-Chave\n[5-7 palavras-chave principais]\n\n" ++
  "## Nível de Complexidade\n[Básico, Intermediário ou Avançado]"

/-- `TextSummarizer.analyze_content`: no minimum-length precondition; the
input is always cut to its first 5000 characters (`text[:5000]`).  The
second component logs the prompts sent to the backend. -/
def analyze_content (text : String) (target_language : Option String)
    (gen : String → Option String) : Option AnalysisResult × List String :=
  let prompt := analysis_system_prompt target_language ++
    "\n\nConteúdo para analisar:\n\n" ++ pyTake 5000 text
  match gen prompt with
  | none => (none, [prompt])
  | some analysis =>
    (some {
      analysis := analysis,
      model_used := "gemini-1.5-flash",
      target_language := target_language.getD "original" },
     [prompt])

/-! ## main.py — the pipeline orchestrator -/

/-- Outcome of a pipeline stage backed by an external library: the stage
returned a value, returned `None`, or raised an exception (which
`analyze_video`'s `except Exception` catches). -/
inductive Outcome (α : Type) where
  | ok (a : α)
  | fail
  | exn
deriving DecidableEq

/-- The part of `get_video_info`'s dict the orchestrator consumes. -/
structure VideoInfo where
  title : String
deriving DecidableEq

/-- The stages of `YouTubeAnalyzer.analyze_video`, in source order, plus
the guaranteed `finally` cleanup step. -/
inductive Stage where
  | metadata
  | download
  | convert
  | transcribe
  | summarize
  | analyze
  | persist
  | cleanup
deriving DecidableEq

/-- External collaborators of one `analyze_video` run. -/
structure PipelineEnv where
  /-- `downloader.get_video_info` (pytubefix). -/
  videoInfo : Outcome VideoInfo
  /-- `downloader.download_audio` (pytubefix): the name of the audio file
  written into `temp_files/`. -/
  download : Outcome String
  /-- filesystem metadata seen by the converter and by nothing else. -/
  fi : String → Option FileMeta
  /-- what an `ffmpeg.run` invocation would do during this run. -/
  conv : ConvOutcome
  /-- `Path(converted_path).exists()` seen by the transcriber. -/
  trEx : Bool
  /-- size in MB of the converted audio seen by the transcriber. -/
  trSize : ℚ
  /-- whether `genai.upload_file` succeeds. -/
  trUpload : Bool
  /-- the backend generation call used by the transcriber. -/
  trGen : String → Option String
  /-- the backend generation call used by `create_summary`. -/
  sumGen : String → Option String
  /-- the backend generation call used by `analyze_content`. -/
  anaGen : String → Option String

/-- The `final_result` dict of `analyze_video` (the fields that carry
pipeline data). -/
structure FinalResult where
  video_info : VideoInfo
  transcript : TranscriptResult
  summary : SummaryResult
  analysis : Option AnalysisResult
  source_language : Option String
  target_language : Option String
  original_audio : String
  converted_audio : String
deriving DecidableEq

/-- Observable outcome of one `analyze_video` call: its return value, the
files remaining in `temp_files/`, and the trace of stages entered. -/
structure RunOut where
  result : Option FinalResult
  tempFiles : List String
  trace : List Stage
deriving DecidableEq

/-- The `try:` body of `YouTubeAnalyzer.analyze_video` (steps 1-7): each
stage's failure or exception short-circuits (the exception branch is the
orchestrator's `except Exception`, which also returns `None`).
`temp0` is the content of `temp_files/` when the run starts. -/
def pipeline_body (env : PipelineEnv) (summary_type : String)
    (target_language source_language : Option String) (temp0 : List String) :
    RunOut :=
  let tr1 := [Stage.metadata]
  match env.videoInfo with
  | .fail => { result := none, tempFiles := temp0, trace := tr1 }
  | .exn => { result := none, tempFiles := temp0, trace := tr1 }
  | .ok video_info =>
  let tr2 := tr1 ++ [Stage.download]
  match env.download with
  | .fail => { result := none, tempFiles := temp0, trace := tr2 }
  | .exn => { result := none, tempFiles := temp0, trace := tr2 }
  | .ok audioName =>
  let audio_path := temp_dir_path audioName
  let temp1 := temp0 ++ [audio_path]
  let tr3 := tr2 ++ [Stage.convert]
  let convPair := optimize_for_gemini env.fi env.conv audio_path
  let temp2 := temp1 ++ (match env.conv with
    | .created _ => convPair.2
    | _ => [])
  match convPair.1 with
  | none => { result := none, tempFiles := temp2, trace := tr3 }
  | some converted_path =>
  let tr4 := tr3 ++ [Stage.transcribe]
  match (transcribe_audio converted_path env.trEx env.trSize
      target_language source_language env.trUpload env.trGen).1 with
  | none => { result := none, tempFiles := temp2, trace := tr4 }
  | some transcript_data =>
  let tr5 := tr4 ++ [Stage.summarize]
  match (create_summary transcript_data.text summary_type
      target_language env.sumGen).1 with
  | none => { result := none, tempFiles := temp2, trace := tr5 }
  | some summary_data =>
  let tr6 := tr5 ++ [Stage.analyze]
  let analysis_data := (analyze_content transcript_data.text
      target_language env.anaGen).1
  let final_result : FinalResult := {
    video_info := video_info,
    transcript := transcript_data,
    summary := summary_data,
    analysis := analysis_data,
    source_language := source_language,
    target_language := target_language,
    original_audio := audio_path,
    converted_audio := converted_path }
  let tr7 := tr6 ++ [Stage.persist]
  { result := some final_result, tempFiles := temp2, trace := tr7 }

/-- `YouTubeAnalyzer.analyze_video`: URL validation happens before the
`try`, so an invalid URL returns `None` without entering any stage (and
without cleanup); otherwise the stage machinery runs and the `finally`
block always executes `cleanup_temp_files`. -/
def analyze_video (env : PipelineEnv) (youtube_url : String)
    (summary_type : String) (target_language source_language : Option String)
    (temp0 : List String) : RunOut :=
  if validate_youtube_url youtube_url then
    let r := pipeline_body env summary_type target_language source_language temp0
    { r with
      tempFiles := cleanup_temp_files r.tempFiles,
      trace := r.trace ++ [Stage.cleanup] }
  else
    { result := none, tempFiles := temp0, trace := [] }

/-- `YouTubeDownloader.download_audio` names the downloaded file
`f"{sanitize_filename(yt.title)}.{audio_stream.subtype}"`. -/
def download_audio_filename (title subtype : String) : String :=
  sanitize_filename title ++ "." ++ subtype

/-- `YouTubeAnalyzer._save_results` builds
`f"{sanitize_filename(video_title)}_{timestamp}{language_suffix}"`. -/
def save_base_filename (video_title timestamp : String)
    (target_language : Option String) : String :=
  sanitize_filename video_title ++ "_" ++ timestamp ++
    (match target_language with
     | some l => "_" ++ l
     | none => "")

/-! ## Concrete fixtures used by witnesses and counterexamples -/

/-- A 30-character transcript (end-to-end scenario C of the spec). -/
def transcript30 : String := "abcdefghijklmnopqrstuvwxyz1234"

/-- A backend generation oracle that always answers `"ok"`. -/
def genOk : String → Option String := fun _ => some "ok"

/-- A concrete environment in which every external collaborator succeeds
and the transcriber's backend produces the 30-character transcript. -/
def envA : PipelineEnv := {
  videoInfo := .ok { title := "Video Teste" },
  download := .ok "Video Teste.mp3",
  fi := fun _ => some { stem := "Video Teste", ext := ".mp3", sizeMB := 1 },
  conv := .created 1,
  trEx := true,
  trSize := 1,
  trUpload := true,
  trGen := fun _ => some transcript30,
  sumGen := genOk,
  anaGen := genOk }

/-- A filesystem oracle on which every path is a 1 MB `.mp3` file. -/
def fiMp3 : String → Option FileMeta :=
  fun _ => some { stem := "a", ext := ".mp3", sizeMB := 1 }

/-- A filesystem oracle on which no path exists. -/
def fiNone : String → Option FileMeta := fun _ => none

/-- A 101-character title whose 100th character is a space: 99 `a`s, a
space, then `b`. -/
def title_aab : String := ⟨List.replicate 99 'a' ++ [' ', 'b']⟩

/-- A 30001-character text (forces summarize truncation). -/
def text_long : String := ⟨List.replicate 30001 'a'⟩

/-- A 50-character text (minimal length accepted by summarize). -/
def text50 : String := ⟨List.replicate 50 'a'⟩

/-- The concrete summary record produced on `text50` with backend answer
`"ok"`. -/
def r50 : SummaryResult := {
  summary := "ok",
  original_length := 50,
  summary_length := 2,
  compression_ratio := (2 : ℚ) / 50,
  model_used := "gemini-1.5-flash",
  summary_type := "structured",
  target_language := "original" }

/-- The spec-side notion for C5: the pattern string occurs as a
contiguous substring of the URL. -/
def MatchesShape (pat url : String) : Prop :=
  ∃ pre post, url.data = pre ++ pat.data ++ post

/-- `l` contains two adjacent whitespace characters. -/
def hasAdjacentSpaces : List Char → Bool
  | [] => false
  | [_] => false
  | a :: b :: rest => (pyIsSpace a && pyIsSpace b) || hasAdjacentSpaces (b :: rest)

/-! ## Helper lemmas -/

/-- `startsWithSeq` decides "the pattern is an initial segment". -/
theorem startsWithSeq_iff (p : List Char) :
    ∀ l, startsWithSeq p l = true ↔ ∃ post, l = p ++ post := by
  induction p with
  | nil => intro l; simp [startsWithSeq]
  | cons a ps ih =>
    intro l
    cases l with
    | nil =>
      simp [startsWithSeq]
    | cons c cs =>
      simp only [startsWithSeq, Bool.and_eq_true, beq_iff_eq, ih, List.cons_append,
        List.cons.injEq]
      constructor
      · rintro ⟨rfl, post, rfl⟩; exact ⟨post, rfl, rfl⟩
      · rintro ⟨post, rfl, rfl⟩; exact ⟨rfl, post, rfl⟩

/-- `occursIn` decides "the pattern occurs somewhere inside the list". -/
theorem occursIn_iff (p : List Char) :
    ∀ l, occursIn p l = true ↔ ∃ pre post, l = pre ++ p ++ post := by
  intro l
  induction l with
  | nil =>
    simp only [occursIn, List.isEmpty_iff]
    constructor
    · rintro rfl; exact ⟨[], [], rfl⟩
    · rintro ⟨pre, post, h⟩
      rcases List.append_eq_nil.mp h.symm with ⟨h1, h2⟩
      exact (List.append_eq_nil.mp h1).2
  | cons c cs ih =>
    simp only [occursIn, Bool.or_eq_true, startsWithSeq_iff, ih]
    constructor
    · rintro (⟨post, h⟩ | ⟨pre, post, h⟩)
      · exact ⟨[], post, by simpa using h⟩
      · exact ⟨c :: pre, post, by simp [h]⟩
    · rintro ⟨pre, post, h⟩
      cases pre with
      | nil => exact Or.inl ⟨post, by simpa using h⟩
      | cons x xs =>
        rcases List.cons.injEq .. ▸ h with ⟨rfl, h2⟩
        exact Or.inr ⟨xs, post, by simpa using h2⟩

theorem hasAdjacentSpaces_tail {c : Char} {l : List Char}
    (h : hasAdjacentSpaces (c :: l) = false) : hasAdjacentSpaces l = false := by
  cases l with
  | nil => rfl
  | cons d r =>
    simp only [hasAdjacentSpaces, Bool.or_eq_false_iff] at h
    exact h.2

theorem hasAdjacentSpaces_append_left :
    (a b : List Char) → hasAdjacentSpaces (a ++ b) = false →
      hasAdjacentSpaces a = false
  | [], _, _ => rfl
  | [_], _, _ => rfl
  | x :: y :: a', b, h => by
    simp only [List.cons_append] at h
    simp only [hasAdjacentSpaces, Bool.or_eq_false_iff] at h ⊢
    refine ⟨h.1, ?_⟩
    exact hasAdjacentSpaces_append_left (y :: a') b (by simpa using h.2)

theorem hasAdjacentSpaces_append_right :
    (a b : List Char) → hasAdjacentSpaces (a ++ b) = false →
      hasAdjacentSpaces b = false
  | [], _, h => h
  | _ :: a', b, h =>
    hasAdjacentSpaces_append_right a' b (hasAdjacentSpaces_tail (by simpa using h))

/-- Head of `collapseWs` on a list starting with a non-space character. -/
theorem collapseWs_head_nonspace {d : Char} (hd : pyIsSpace d = false)
    (rest : List Char) : (collapseWs (d :: rest)).head? = some d := by
  cases rest with
  | nil => simp [collapseWs, hd]
  | cons e r => simp [collapseWs, hd]

theorem hasAdjacentSpaces_cons_false {c : Char} {l : List Char}
    (hl : hasAdjacentSpaces l = false)
    (hcl : ∀ x, l.head? = some x → (pyIsSpace c && pyIsSpace x) = false) :
    hasAdjacentSpaces (c :: l) = false := by
  cases l with
  | nil => rfl
  | cons d r =>
    simp only [hasAdjacentSpaces, Bool.or_eq_false_iff]
    exact ⟨hcl d rfl, hl⟩

/-- `collapseWs` never leaves two adjacent whitespace characters. -/
theorem collapseWs_no_adjacent :
    (l : List Char) → hasAdjacentSpaces (collapseWs l) = false
  | [] => rfl
  | [c] => by
    rcases hc : pyIsSpace c <;> simp [collapseWs, hc, hasAdjacentSpaces]
  | c :: d :: r => by
    rcases hc : pyIsSpace c with _ | _
    · rw [show collapseWs (c :: d :: r) = c :: collapseWs (d :: r) by
        simp [collapseWs, hc]]
      refine hasAdjacentSpaces_cons_false (collapseWs_no_adjacent (d :: r)) ?_
      intro x _
      simp [hc]
    · rcases hd : pyIsSpace d with _ | _
      · rw [show collapseWs (c :: d :: r) = ' ' :: collapseWs (d :: r) by
          simp [collapseWs, hc, hd]]
        refine hasAdjacentSpaces_cons_false (collapseWs_no_adjacent (d :: r)) ?_
        intro x hx
        rw [collapseWs_head_nonspace hd r] at hx
        cases hx
        simp [hd]
      · rw [show collapseWs (c :: d :: r) = collapseWs (d :: r) by
          simp [collapseWs, hc, hd]]
        exact collapseWs_no_adjacent (d :: r)

/-- Characters of `collapseWs l` are a space or come from `l`. -/
theorem mem_collapseWs :
    (l : List Char) → ∀ c ∈ collapseWs l, c = ' ' ∨ c ∈ l
  | [] => by simp [collapseWs]
  | [a] => by
    intro c hc
    rcases ha : pyIsSpace a <;> simp [collapseWs, ha] at hc <;> simp [hc]
  | a :: d :: r => by
    intro c hc
    rcases ha : pyIsSpace a with _ | _
    · rw [show collapseWs (a :: d :: r) = a :: collapseWs (d :: r) by
        simp [collapseWs, ha]] at hc
      rcases List.mem_cons.mp hc with rfl | hc
      · exact Or.inr (by simp)
      · rcases mem_collapseWs (d :: r) c hc with h | h
        · exact Or.inl h
        · exact Or.inr (List.mem_cons_of_mem a h)
    · rcases hd : pyIsSpace d with _ | _
      · rw [show collapseWs (a :: d :: r) = ' ' :: collapseWs (d :: r) by
          simp [collapseWs, ha, hd]] at hc
        rcases List.mem_cons.mp hc with rfl | hc
        · exact Or.inl rfl
        · rcases mem_collapseWs (d :: r) c hc with h | h
          · exact Or.inl h
          · exact Or.inr (List.mem_cons_of_mem a h)
      · rw [show collapseWs (a :: d :: r) = collapseWs (d :: r) by
          simp [collapseWs, ha, hd]] at hc
        rcases mem_collapseWs (d :: r) c hc with h | h
        · exact Or.inl h
        · exact Or.inr (List.mem_cons_of_mem a h)

/-- Membership survives `pyStrip`. -/
theorem mem_pyStrip {c : Char} {l : List Char} (h : c ∈ pyStrip l) : c ∈ l := by
  unfold pyStrip at h
  rw [List.mem_reverse] at h
  have h1 := (List.dropWhile_sublist pyIsSpace).subset h
  rw [List.mem_reverse] at h1
  exact (List.dropWhile_sublist pyIsSpace).subset h1

/-- The trailing strip: `l.dropWhile` is `pyStrip l` plus trailing
whitespace. -/
theorem pyStrip_append_dropWhile (l : List Char) :
    ∃ post, l.dropWhile pyIsSpace = pyStrip l ++ post := by
  refine ⟨((l.dropWhile pyIsSpace).reverse.takeWhile pyIsSpace).reverse, ?_⟩
  conv_lhs => rw [← List.reverse_reverse (l.dropWhile pyIsSpace),
    ← List.takeWhile_append_dropWhile pyIsSpace (l.dropWhile pyIsSpace).reverse]
  rw [List.reverse_append]
  rfl

/-- `pyStrip l` sits in the middle of `l`. -/
theorem pyStrip_middle (l : List Char) :
    ∃ pre post, l = pre ++ (pyStrip l ++ post) := by
  obtain ⟨post, hpost⟩ := pyStrip_append_dropWhile l
  exact ⟨l.takeWhile pyIsSpace, post, by
    conv_lhs => rw [← List.takeWhile_append_dropWhile pyIsSpace l]
    rw [hpost]⟩

theorem head_dropWhile_false {p : Char → Bool} :
    (l : List Char) → ∀ c, (l.dropWhile p).head? = some c → p c = false
  | [], c, h => by simp [List.dropWhile] at h
  | a :: l', c, h => by
    by_cases ha : p a = true
    · rw [List.dropWhile_cons_of_pos ha] at h
      exact head_dropWhile_false l' c h
    · rw [List.dropWhile_cons_of_neg ha] at h
      cases h
      exact Bool.not_eq_true _ ▸ ha

/-- The first character of `pyStrip l` is never whitespace. -/
theorem head_pyStrip_not_space {l : List Char} {c : Char}
    (h : (pyStrip l).head? = some c) : pyIsSpace c = false := by
  obtain ⟨post, hpost⟩ := pyStrip_append_dropWhile l
  refine head_dropWhile_false l c ?_
  rw [hpost]
  cases hps : pyStrip l with
  | nil => rw [hps] at h; cases h
  | cons x xs => rw [hps] at h; cases h; rfl

theorem head_take {l : List Char} {n : Nat} {c : Char}
    (h : (l.take n).head? = some c) : l.head? = some c := by
  cases l <;> cases n <;> simp_all [List.take]

/-- `pyStrip` never lengthens a list. -/
theorem pyStrip_length_le (l : List Char) : (pyStrip l).length ≤ l.length := by
  unfold pyStrip
  rw [List.length_reverse]
  calc ((l.dropWhile pyIsSpace).reverse.dropWhile pyIsSpace).length
      ≤ (l.dropWhile pyIsSpace).reverse.length :=
        (List.dropWhile_sublist pyIsSpace).length_le
    _ = (l.dropWhile pyIsSpace).length := List.length_reverse _
    _ ≤ l.length := (List.dropWhile_sublist pyIsSpace).length_le

theorem dropWhile_eq_self_of_all {p : Char → Bool} {l : List Char}
    (h : ∀ c ∈ l, p c = false) : l.dropWhile p = l := by
  cases l with
  | nil => rfl
  | cons a t =>
    exact List.dropWhile_cons_of_neg (by simp [h a (by simp)])

/-- `pyStrip` is the identity on whitespace-free lists. -/
theorem pyStrip_of_no_space {l : List Char}
    (h : ∀ c ∈ l, pyIsSpace c = false) : pyStrip l = l := by
  unfold pyStrip
  rw [dropWhile_eq_self_of_all h,
    dropWhile_eq_self_of_all (fun c hc => h c (List.mem_reverse.mp hc)),
    List.reverse_reverse]

/-- Closed-form check used when reducing `optimize_for_whisper` at the
Gemini target. -/
theorem gemini_target_check : (pyToLower "gemini" == "gemini") = true := by decide

theorem string_length_data (s : String) : s.length = s.data.length := rfl

theorem pyStripStr_length (s : String) :
    (pyStripStr s).length = (pyStrip s.data).length := rfl

theorem hasAdjacentSpaces_pyStrip {l : List Char}
    (h : hasAdjacentSpaces l = false) :
    hasAdjacentSpaces (pyStrip l) = false := by
  obtain ⟨pre, post, hdec⟩ := pyStrip_middle l
  rw [hdec] at h
  exact hasAdjacentSpaces_append_left _ _ (hasAdjacentSpaces_append_right _ _ h)

theorem hasAdjacentSpaces_take {l : List Char} (n : Nat)
    (h : hasAdjacentSpaces l = false) :
    hasAdjacentSpaces (l.take n) = false :=
  hasAdjacentSpaces_append_left _ (l.drop n)
    (by rw [List.take_append_drop]; exact h)

/-! ## Claim C1 — guaranteed cleanup of the transient media directory -/

/-- C1: for every pipeline run of `analyze_video` that enters the stage
machinery (any stage outcomes, including failure signals and escaped
exceptions), the `finally` cleanup step runs after the terminal stage and
deletes every file of the transient media directory, which therefore
holds zero files afterwards. -/
theorem analyze_video_always_cleans (env : PipelineEnv)
    (url summary_type : String) (tl sl : Option String) (temp0 : List String)
    (hurl : validate_youtube_url url = true) :
    (analyze_video env url summary_type tl sl temp0).tempFiles = []
    ∧ (analyze_video env url summary_type tl sl temp0).trace.getLast? =
        some Stage.cleanup := by
  simp [analyze_video, hurl, cleanup_temp_files, List.getLast?_concat]

/-- Witness for C1 at a concrete run (with leftover files in the
transient directory at start). -/
theorem analyze_video_always_cleans_witness :
    validate_youtube_url "https://youtube.com/watch?v=abc123" = true
    ∧ ((analyze_video envA "https://youtube.com/watch?v=abc123" "structured"
          none none ["temp_files/leftover.mp3"]).tempFiles = []
       ∧ (analyze_video envA "https://youtube.com/watch?v=abc123" "structured"
          none none ["temp_files/leftover.mp3"]).trace.getLast? =
            some Stage.cleanup) :=
  ⟨by decide,
   analyze_video_always_cleans envA "https://youtube.com/watch?v=abc123"
     "structured" none none ["temp_files/leftover.mp3"] (by decide)⟩

/-! ## Claim C3 — oversized assets are rejected before any network call -/

/-- C3: when the audio asset's size exceeds the 20 MB backend ceiling,
`transcribe_audio` returns no result and makes no network call at all
(no upload, no generation). -/
theorem transcribe_audio_too_large (audio_path : String) (ex : Bool)
    (sizeMB : ℚ) (language source_language : Option String) (uploadOk : Bool)
    (gen : String → Option String) (h : 20 < sizeMB) :
    transcribe_audio audio_path ex sizeMB language source_language uploadOk gen =
      (none, []) := by
  unfold transcribe_audio
  rcases ex with _ | _ <;> simp [h]

/-- Witness for C3: a 25 MB existing asset. -/
theorem transcribe_audio_too_large_witness :
    (20 : ℚ) < 25
    ∧ transcribe_audio "temp_files/a.mp3" true 25 none none true genOk =
        (none, []) :=
  ⟨by norm_num,
   transcribe_audio_too_large "temp_files/a.mp3" true 25 none none true genOk
     (by norm_num)⟩

/-! ## Claim C4 — lenient fallback vs strict propagation -/

/-- On a failed conversion, the internal Gemini optimization returns the
original path. -/
theorem optimize_internal_fallback {conv : ConvOutcome}
    (hconv : conv.isFailure = true) (input_path : String) (m : FileMeta) :
    (optimize_for_gemini_internal conv input_path m).1 = input_path := by
  unfold optimize_for_gemini_internal
  split
  · rfl
  · cases conv <;> simp_all [ConvOutcome.isFailure]

/-- C4: if transcoding fails for any reason (ffmpeg error, other
exception, or missing output file) on an existing input, the lenient
`optimize_for_gemini` entry point returns the original asset unchanged,
while the strict `convert_to_wav` entry point propagates the failure as
`None`. -/
theorem converter_failure_duality (fi : String → Option FileMeta)
    (conv : ConvOutcome) (input_path : String) (m : FileMeta)
    (hfi : fi input_path = some m) (hconv : conv.isFailure = true) :
    (optimize_for_gemini fi conv input_path).1 = some input_path
    ∧ (convert_to_wav fi conv input_path).1 = none := by
  constructor
  · simp only [optimize_for_gemini, optimize_for_whisper, hfi,
      gemini_target_check, if_true]
    simp [optimize_internal_fallback hconv]
  · unfold convert_to_wav
    rw [hfi]
    cases conv <;> simp_all [ConvOutcome.isFailure]

/-- Witness for C4 at a concrete ffmpeg error on an existing mp3. -/
theorem converter_failure_duality_witness :
    (fiMp3 "temp_files/a.mp3" = some { stem := "a", ext := ".mp3", sizeMB := 1 }
     ∧ ConvOutcome.ffmpegError.isFailure = true)
    ∧ ((optimize_for_gemini fiMp3 .ffmpegError "temp_files/a.mp3").1 =
        some "temp_files/a.mp3"
       ∧ (convert_to_wav fiMp3 .ffmpegError "temp_files/a.mp3").1 = none) :=
  ⟨⟨rfl, rfl⟩,
   converter_failure_duality fiMp3 .ffmpegError "temp_files/a.mp3"
     { stem := "a", ext := ".mp3", sizeMB := 1 } rfl rfl⟩

/-! ## Claim C7 — idempotence on compliant assets -/

/-- C7: on an asset whose container is already accepted
(mp3/wav/flac) and whose size is at most the 18 MB safety margin,
normalization returns the asset unchanged with no transcoding run, and a
second normalization call (under any transcoder behaviour) again returns
the identical reference with no transcoding run. -/
theorem optimize_for_gemini_idempotent (fi : String → Option FileMeta)
    (conv conv' : ConvOutcome) (input_path : String) (m : FileMeta)
    (hfi : fi input_path = some m)
    (hext : pyToLower m.ext ∈ [".mp3", ".wav", ".flac"])
    (hsize : m.sizeMB ≤ 18) :
    optimize_for_gemini fi conv input_path = (some input_path, [])
    ∧ optimize_for_gemini fi conv' input_path = (some input_path, []) := by
  have hc : pyToLower m.ext ∈ [".mp3", ".wav", ".flac"] ∧ m.sizeMB ≤ 18 :=
    ⟨hext, hsize⟩
  constructor <;>
    simp [optimize_for_gemini, optimize_for_whisper, hfi, gemini_target_check,
      optimize_for_gemini_internal, hc]

/-- Witness for C7: a 1 MB `.mp3` asset. -/
theorem optimize_for_gemini_idempotent_witness :
    (fiMp3 "temp_files/a.mp3" = some { stem := "a", ext := ".mp3", sizeMB := 1 }
     ∧ pyToLower ".mp3" ∈ [".mp3", ".wav", ".flac"] ∧ (1 : ℚ) ≤ 18)
    ∧ (optimize_for_gemini fiMp3 (.created 1) "temp_files/a.mp3" =
        (some "temp_files/a.mp3", [])
       ∧ optimize_for_gemini fiMp3 .otherError "temp_files/a.mp3" =
        (some "temp_files/a.mp3", [])) :=
  ⟨⟨rfl, by decide, by norm_num⟩,
   optimize_for_gemini_idempotent fiMp3 (.created 1) .otherError
     "temp_files/a.mp3" { stem := "a", ext := ".mp3", sizeMB := 1 } rfl
     (by decide) (by norm_num)⟩

/-! ## Claim C9 — missing input files are a hard failure, not a fallback -/

/-- C9: when the input path does not refer to an existing file, both
lenient entry points (`optimize_for_whisper`, for any target, and
`optimize_for_gemini`) return `None` without attempting any transcoding;
the degraded fallback-to-original never applies to missing files. -/
theorem optimize_missing_file (fi : String → Option FileMeta)
    (conv : ConvOutcome) (input_path target_ai : String)
    (h : fi input_path = none) :
    optimize_for_whisper fi conv input_path target_ai = (none, [])
    ∧ optimize_for_gemini fi conv input_path = (none, []) := by
  constructor <;> simp [optimize_for_whisper, optimize_for_gemini, h]

/-- Witness for C9 at a concrete missing file. -/
theorem optimize_missing_file_witness :
    fiNone "temp_files/missing.webm" = none
    ∧ (optimize_for_whisper fiNone .ffmpegError "temp_files/missing.webm"
        "whisper" = (none, [])
       ∧ optimize_for_gemini fiNone .ffmpegError "temp_files/missing.webm" =
        (none, [])) :=
  ⟨rfl,
   optimize_missing_file fiNone .ffmpegError "temp_files/missing.webm"
     "whisper" rfl⟩

/-! ## Claim C5 — what the URL validator actually accepts -/

/-- C5 fails as stated: the validator is an unanchored substring search,
so a string of a different scheme and shape that merely contains one of
the four patterns is accepted, contradicting "no string of any other
scheme or shape is accepted". -/
theorem validate_youtube_url_accepts_foreign_scheme :
    validate_youtube_url "ftp://example.org/youtu.be/abc" = true := by decide

/-- C5 (amended): the validator accepts a string iff one of the four
pattern substrings (watch-with-id, short-link, embed, legacy-v) occurs
anywhere inside it; in particular `https://youtube.com/watch?v=abc123`
is accepted and `https://vimeo.com/123` is rejected, but strings of
other schemes or shapes containing such a substring are accepted too. -/
theorem validate_youtube_url_iff_contains_pattern :
    (∀ url : String, validate_youtube_url url = true ↔
      (MatchesShape "youtube.com/watch?v=" url ∨ MatchesShape "youtu.be/" url ∨
       MatchesShape "youtube.com/embed/" url ∨ MatchesShape "youtube.com/v/" url))
    ∧ validate_youtube_url "https://youtube.com/watch?v=abc123" = true
    ∧ validate_youtube_url "https://vimeo.com/123" = false := by
  refine ⟨fun url => ?_, by decide, by decide⟩
  simp only [validate_youtube_url, youtube_patterns, List.any_cons,
    List.any_nil, Bool.or_eq_true, Bool.false_eq_true, or_false,
    occursIn_iff, MatchesShape]

/-! ## Claim C10 — sanitized filenames -/

/-- C10 fails as stated on "no trailing whitespace": `strip()` runs
before the `[:100]` cut, so a title whose 100th character is a space
sanitizes to a string ending in a space. -/
theorem sanitize_filename_can_end_in_space :
    (sanitize_filename title_aab).data.getLast? = some ' '
    ∧ pyIsSpace ' ' = true := by
  constructor <;> decide

/-- C10 (amended): for every input, `sanitize_filename` yields a string
with none of the characters `<>:"/\|?*`, with no two adjacent whitespace
characters (runs collapsed to one space), with no leading whitespace, of
length at most 100 — though the final `[:100]` cut may leave one
trailing space; downloaded-audio filenames and persisted-output
filenames are built from such a sanitized title. -/
theorem sanitize_filename_spec (s title subtype video_title timestamp : String)
    (tl : Option String) :
    (∀ c ∈ (sanitize_filename s).data, c ∉ pyInvalidChars)
    ∧ hasAdjacentSpaces (sanitize_filename s).data = false
    ∧ (∀ c, (sanitize_filename s).data.head? = some c → pyIsSpace c = false)
    ∧ (sanitize_filename s).data.length ≤ 100
    ∧ (∃ rest, download_audio_filename title subtype =
        sanitize_filename title ++ rest)
    ∧ (∃ rest, save_base_filename video_title timestamp tl =
        sanitize_filename video_title ++ rest) := by
  have hdata : (sanitize_filename s).data =
      (pyStrip (collapseWs (s.data.map
        fun c => if c ∈ pyInvalidChars then '_' else c))).take 100 := rfl
  refine ⟨?_, ?_, ?_, ?_, ?_, ?_⟩
  · intro c hc
    rw [hdata] at hc
    have h1 := List.take_subset _ _ hc
    have h2 := mem_pyStrip h1
    rcases mem_collapseWs _ c h2 with rfl | h3
    · decide
    · rcases List.mem_map.mp h3 with ⟨x, _, rfl⟩
      by_cases hx : x ∈ pyInvalidChars
      · simp only [hx, if_true]
        decide
      · simp [hx]
  · rw [hdata]
    exact hasAdjacentSpaces_take 100
      (hasAdjacentSpaces_pyStrip (collapseWs_no_adjacent _))
  · intro c hc
    rw [hdata] at hc
    exact head_pyStrip_not_space (head_take hc)
  · rw [hdata]
    simp [List.length_take]
  · exact ⟨"." ++ subtype, by simp [download_audio_filename, String.append_assoc]⟩
  · refine ⟨"_" ++ timestamp ++ (match tl with
      | some l => "_" ++ l
      | none => ""), ?_⟩
    simp [save_base_filename, String.append_assoc]

/-! ## Claim C6 — truncation law for summarize and analyze -/

/-- C6: for every summarize input longer than 30000 characters (that
passes the minimum-length check and therefore reaches prompting), the
text sent to the backend is exactly the first 30000 characters plus the
fixed truncation marker; and for every analyze input, the text sent to
the backend is always the first 5000 characters, independently of
summarize's cap. -/
theorem summarize_truncation (text t2 summary_type : String)
    (tl : Option String) (gen gen2 : String → Option String)
    (hlong : 30000 < text.length)
    (hmin : 50 ≤ (pyStripStr text).length) :
    (create_summary text summary_type tl gen).2 =
      [get_system_prompt summary_type tl ++ "\n\nTexto para resumir:\n\n" ++
        (pyTake 30000 text ++ truncation_marker)]
    ∧ (analyze_content t2 tl gen2).2 =
      [analysis_system_prompt tl ++ "\n\nConteúdo para analisar:\n\n" ++
        pyTake 5000 t2] := by
  constructor
  · have h50 : ¬((pyStripStr text).length < 50) := not_lt.mpr hmin
    unfold create_summary
    rw [if_neg h50, if_pos hlong]
    cases hg : gen (get_system_prompt summary_type tl ++
      "\n\nTexto para resumir:\n\n" ++
      (pyTake 30000 text ++ truncation_marker)) <;> simp [hg]
  · unfold analyze_content
    cases hg : gen2 (analysis_system_prompt tl ++
      "\n\nConteúdo para analisar:\n\n" ++ pyTake 5000 t2) <;> simp [hg]

/-- Witness for C6 at a 30001-character input. -/
theorem summarize_truncation_witness :
    (30000 < text_long.length ∧ 50 ≤ (pyStripStr text_long).length)
    ∧ ((create_summary text_long "structured" none genOk).2 =
        [get_system_prompt "structured" none ++ "\n\nTexto para resumir:\n\n" ++
          (pyTake 30000 text_long ++ truncation_marker)]
       ∧ (analyze_content transcript30 none genOk).2 =
        [analysis_system_prompt none ++ "\n\nConteúdo para analisar:\n\n" ++
          pyTake 5000 transcript30]) := by
  have hdata : text_long.data = List.replicate 30001 'a' := rfl
  have hlong : 30000 < text_long.length := by
    rw [string_length_data, hdata, List.length_replicate]
    norm_num
  have hstrip : pyStrip text_long.data = text_long.data := by
    refine pyStrip_of_no_space ?_
    intro c hc
    rw [hdata] at hc
    rw [List.eq_of_mem_replicate hc]
    rfl
  have hmin : 50 ≤ (pyStripStr text_long).length := by
    rw [pyStripStr_length, hstrip, hdata, List.length_replicate]
    norm_num
  exact ⟨⟨hlong, hmin⟩,
    summarize_truncation text_long transcript30 "structured" none genOk genOk
      hlong hmin⟩

/-! ## Claim C8 — compression ratio -/

/-- C8: every summarize call that returns a result (the backend having
produced a non-empty summary) has `compression_ratio` exactly equal to
`summary_length / original_length`, computed on the final character
counts after truncation, and this ratio is strictly positive (and, being
a rational, finite). -/
theorem compression_ratio_exact (text summary_type : String)
    (tl : Option String) (gen : String → Option String)
    (r : SummaryResult) (log : List String)
    (hne : ∀ p s, gen p = some s → s ≠ "")
    (hr : create_summary text summary_type tl gen = (some r, log)) :
    r.compression_ratio = (r.summary_length : ℚ) / (r.original_length : ℚ)
    ∧ 0 < r.compression_ratio
    ∧ r.original_length =
        (if 30000 < text.length then pyTake 30000 text ++ truncation_marker
         else text).length := by
  unfold create_summary at hr
  by_cases h50 : (pyStripStr text).length < 50
  · rw [if_pos h50] at hr
    exact absurd (congrArg Prod.fst hr) (by simp)
  · rw [if_neg h50] at hr
    dsimp only at hr
    cases hgen : gen (get_system_prompt summary_type tl ++
        "\n\nTexto para resumir:\n\n" ++
        (if 30000 < text.length then pyTake 30000 text ++ truncation_marker
         else text)) with
    | none =>
      rw [hgen] at hr
      exact absurd (congrArg Prod.fst hr) (by simp)
    | some summary =>
      rw [hgen] at hr
      injection congrArg Prod.fst hr with hr1
      subst hr1
      have hsum : summary ≠ "" := hne _ _ hgen
      have hslen : 0 < summary.length := by
        rcases summary with ⟨sdata⟩
        cases sdata with
        | nil => exact absurd rfl hsum
        | cons a t => simp [String.length]
      have htlen : 0 <
          (if 30000 < text.length then pyTake 30000 text ++ truncation_marker
           else text).length := by
        by_cases hl : 30000 < text.length
        · rw [if_pos hl, String.length_append]
          have : 0 < truncation_marker.length := by decide
          omega
        · rw [if_neg hl]
          have h1 := pyStrip_length_le text.data
          have h2 : 50 ≤ (pyStrip text.data).length := not_lt.mp h50
          show 0 < text.data.length
          omega
      refine ⟨rfl, ?_, rfl⟩
      show 0 < (summary.length : ℚ) /
        ((if 30000 < text.length then pyTake 30000 text ++ truncation_marker
          else text).length : ℚ)
      apply div_pos
      · exact_mod_cast hslen
      · exact_mod_cast htlen

/-- Witness for C8 on a concrete 50-character input. -/
theorem compression_ratio_exact_witness :
    r50.compression_ratio = (r50.summary_length : ℚ) / (r50.original_length : ℚ)
    ∧ 0 < r50.compression_ratio
    ∧ r50.original_length =
        (if 30000 < text50.length then pyTake 30000 text50 ++ truncation_marker
         else text50).length :=
  compression_ratio_exact text50 "structured" none genOk r50
    [get_system_prompt "structured" none ++ "\n\nTexto para resumir:\n\n" ++
      text50]
    (fun p s h => by
      injection h with h'
      subst h'
      decide)
    rfl

/-! ## Claim C2 — short transcripts: summarize vs analyze -/

/-- C2 fails as stated inside the pipeline: on a 30-character transcript
the summarize stage fails with the TextTooShort signal and
`analyze_video` returns `None` at once (step 5's `if not summary_data:
return None`), so the analyze stage never executes during the run. -/
theorem pipeline_skips_analysis_after_short_transcript :
    transcript30.length = 30
    ∧ (analyze_video envA "https://youtube.com/watch?v=abc123" "structured"
        none none []).result = none
    ∧ Stage.summarize ∈ (analyze_video envA "https://youtube.com/watch?v=abc123"
        "structured" none none []).trace
    ∧ Stage.analyze ∉ (analyze_video envA "https://youtube.com/watch?v=abc123"
        "structured" none none []).trace :=
  ⟨by decide, by decide, by decide, by decide⟩

/-- C2 (amended): for a transcript whose trimmed length is below 50,
`create_summary` fails with the TextTooShort signal (no result);
`analyze_content`, which has no minimum-length precondition, still
returns a result when invoked directly on the same text; but within an
end-to-end `analyze_video` run the summarize failure short-circuits the
pipeline, which returns `None` without executing the analyze stage. -/
theorem summarize_short_text_behaviour
    (text summary_type url audioName : String) (tl sl : Option String)
    (env : PipelineEnv) (temp0 : List String) (vi : VideoInfo) (m : FileMeta)
    (hshort : (pyStripStr text).length < 50)
    (hana : ∀ p, (env.anaGen p).isSome = true)
    (hurl : validate_youtube_url url = true)
    (hvi : env.videoInfo = .ok vi)
    (hdl : env.download = .ok audioName)
    (hfi : env.fi (temp_dir_path audioName) = some m)
    (hext : pyToLower m.ext ∈ [".mp3", ".wav", ".flac"])
    (hsize : m.sizeMB ≤ 18)
    (hex : env.trEx = true)
    (hsz : env.trSize ≤ 20)
    (hup : env.trUpload = true)
    (hgen : env.trGen (build_transcription_prompt tl sl) = some text) :
    (create_summary text summary_type tl env.sumGen).1 = none
    ∧ ((analyze_content text tl env.anaGen).1).isSome = true
    ∧ (analyze_video env url summary_type tl sl temp0).result = none
    ∧ Stage.analyze ∉ (analyze_video env url summary_type tl sl temp0).trace := by
  have hsum : (create_summary text summary_type tl env.sumGen).1 = none := by
    unfold create_summary
    rw [if_pos hshort]
  have hana' : ((analyze_content text tl env.anaGen).1).isSome = true := by
    cases hg : env.anaGen (analysis_system_prompt tl ++
        "\n\nConteúdo para analisar:\n\n" ++ pyTake 5000 text) with
    | none =>
      have h := hana (analysis_system_prompt tl ++
        "\n\nConteúdo para analisar:\n\n" ++ pyTake 5000 text)
      rw [hg] at h
      exact absurd h (by decide)
    | some a =>
      unfold analyze_content
      dsimp only
      rw [hg]
      rfl
  have h20 : ¬(20 < env.trSize) := not_lt.mpr hsz
  have hc : pyToLower m.ext ∈ [".mp3", ".wav", ".flac"] ∧ m.sizeMB ≤ 18 :=
    ⟨hext, hsize⟩
  refine ⟨hsum, hana', ?_, ?_⟩ <;>
    simp [analyze_video, hurl, pipeline_body, hvi, hdl, optimize_for_gemini,
      optimize_for_whisper, hfi, gemini_target_check,
      optimize_for_gemini_internal, hc, transcribe_audio, hex, h20, hup, hgen,
      hsum, cleanup_temp_files]

/-- Witness for the amended C2 at the concrete 30-character transcript. -/
theorem summarize_short_text_behaviour_witness :
    ((pyStripStr transcript30).length < 50
     ∧ validate_youtube_url "https://youtube.com/watch?v=abc123" = true)
    ∧ ((create_summary transcript30 "structured" none envA.sumGen).1 = none
       ∧ ((analyze_content transcript30 none envA.anaGen).1).isSome = true
       ∧ (analyze_video envA "https://youtube.com/watch?v=abc123" "structured"
            none none []).result = none
       ∧ Stage.analyze ∉ (analyze_video envA "https://youtube.com/watch?v=abc123"
            "structured" none none []).trace) :=
  ⟨⟨by decide, by decide⟩,
   summarize_short_text_behaviour transcript30 "structured"
     "https://youtube.com/watch?v=abc123" "Video Teste.mp3" none none envA []
     { title := "Video Teste" } { stem := "Video Teste", ext := ".mp3", sizeMB := 1 }
     (by decide) (fun p => rfl) (by decide) rfl rfl rfl (by decide)
     (by norm_num) rfl (by norm_num [envA]) rfl rfl⟩
